import Mathlib

set_option maxRecDepth 100000

/-!
Verification of the traceleft metagenerator (src/metagenerator/metagenerator.go)
against its natural-language specification.

The Go source is shallowly embedded: pure functions become Lean functions,
Go maps become either association lists (the static type-conversion tables)
or functions to `Option` (the run-time `FdMap`), machine integers become
`Nat`/`Int` with explicit wrapping where the code casts, and the filesystem
(stat, readlink, the tracepoint directory walk) is passed in explicitly as
oracle data.
-/

/-! ## FdInfo and FdMap (metagenerator.go, kernelStructs template) -/

/-- `FdInfo`: identity snapshot for an open descriptor (path, inode number,
device major/minor).  `uint64` fields are modelled as `Nat`. -/
structure FdInfo where
  Path  : String
  Ino   : Nat
  Major : Nat
  Minor : Nat
deriving Repr, DecidableEq

/-- The zero value of `FdInfo` (what `var info FdInfo` or a missed Go map
lookup yields). -/
def zeroFdInfo : FdInfo := { Path := "", Ino := 0, Major := 0, Minor := 0 }

/-- `FdMap`: Pid -> Fd -> FdInfo.  The two nested Go maps are modelled as
functions into `Option`; `uint32` keys are modelled as `Nat`. -/
def FdMap := Nat → Option (Nat → Option FdInfo)

/-- `NewFdMap()`: the empty table. -/
def NewFdMap : FdMap := fun _ => none

/-- `FdMap.Get`: looks up `items[pid][fd]`.  When the pid has no inner map
Go returns `(nil, false)`; when the inner map misses the fd, Go's
`info, ok := inner[fd]; return &info, ok` returns a pointer to the zero
value together with `false`. -/
def FdMap.Get (f : FdMap) (pid fd : Nat) : Option FdInfo × Bool :=
  match f pid with
  | none => (none, false)
  | some inner =>
    match inner fd with
    | some info => (some info, true)
    | none => (some zeroFdInfo, false)

/-- `FdMap.Put`: inserts/overwrites `items[pid][fd] = info`, creating the
inner map when absent. -/
def FdMap.Put (f : FdMap) (pid fd : Nat) (info : FdInfo) : FdMap :=
  let inner : Nat → Option FdInfo :=
    match f pid with
    | some m => m
    | none => fun _ => none
  fun p => if p = pid then some (fun d => if d = fd then some info else inner d) else f p

/-- `FdMap.Delete`: removes `items[pid][fd]` when the inner map exists. -/
def FdMap.Delete (f : FdMap) (pid fd : Nat) : FdMap :=
  match f pid with
  | some m =>
    fun p => if p = pid then some (fun d => if d = fd then none else m d) else f p
  | none => f

/-- `FdMap.DeletePid`: removes the whole inner map of `pid`. -/
def FdMap.DeletePid (f : FdMap) (pid : Nat) : FdMap :=
  fun p => if p = pid then none else f p

/-- `FdMap.Clear`: replaces the table with a fresh empty map. -/
def FdMap.Clear (_ : FdMap) : FdMap := fun _ => none

/-- State-passing form of `FdMap.Get`: the pair of the table as it stands
after the call and the returned value.  The body of `Get` only reads
(`RLock` / map lookups), so the table after the call is the input table. -/
def FdMap.getS (f : FdMap) (pid fd : Nat) : FdMap × (Option FdInfo × Bool) :=
  (f, f.Get pid fd)

/-- In the source, `Get` returns `&info` where `info` is a stack copy of the
map entry (`info, ok := inner[fd]` copies the value out of the Go map).
A write through the returned pointer therefore writes that copy, not the
table: applying a mutation `g` through the pointer yields the untouched
table together with the caller's mutated copy. -/
def FdMap.writeThroughGetPtr (f : FdMap) (pid fd : Nat) (g : FdInfo → FdInfo) :
    FdMap × Option FdInfo :=
  ((f.getS pid fd).1, ((f.getS pid fd).2.1).map g)

/-! ## Theorems for the FD tracker -/

/-- C5: `Put(pid, fd, info)` followed by `Get(pid, fd)` returns that info with
found = true; `Delete(pid, fd)` followed by `Get(pid, fd)` returns
found = false; `DeletePid(pid)` makes `Get(pid, f)` report not-found for every
descriptor `f` of that pid while leaving every entry of every other pid
unchanged. -/
theorem fdmap_put_get_delete_laws (m : FdMap) (pid fd : Nat) (info : FdInfo) :
    (m.Put pid fd info).Get pid fd = (some info, true)
    ∧ ((m.Delete pid fd).Get pid fd).2 = false
    ∧ (∀ f', ((m.DeletePid pid).Get pid f').2 = false)
    ∧ (∀ p' f', p' ≠ pid → (m.DeletePid pid).Get p' f' = m.Get p' f') := by
  refine ⟨?_, ?_, ?_, ?_⟩
  · simp [FdMap.Put, FdMap.Get]
  · unfold FdMap.Delete FdMap.Get
    cases h : m pid with
    | none => simp [h]
    | some inner => simp [h]
  · intro f'
    simp [FdMap.DeletePid, FdMap.Get]
  · intro p' f' hne
    simp [FdMap.DeletePid, FdMap.Get, hne]

/-- Witness for C5 at pid = 3, fd = 7, a concrete info, and other pid 4. -/
theorem fdmap_put_get_delete_laws_witness :
    ((NewFdMap.Put 3 7 { Path := "/tmp/a", Ino := 1, Major := 2, Minor := 3 }).Get 3 7
       = (some { Path := "/tmp/a", Ino := 1, Major := 2, Minor := 3 }, true))
    ∧ ((NewFdMap.DeletePid 3).Get 4 9 = NewFdMap.Get 4 9) := by
  refine ⟨(fdmap_put_get_delete_laws NewFdMap 3 7 _).1, ?_⟩
  exact (fdmap_put_get_delete_laws NewFdMap 3 7
    { Path := "/tmp/a", Ino := 1, Major := 2, Minor := 3 }).2.2.2 4 9 (by decide)

/-- C10: `Get` is read-only and hands back a copy: the table after a call to
`Get` is the input table, and writing any mutation `g` through the returned
pointer leaves what a subsequent `Get(pid, fd)` returns unchanged. -/
theorem fdmap_get_readonly_copy (m : FdMap) (pid fd : Nat) :
    (m.getS pid fd).1 = m
    ∧ (∀ g : FdInfo → FdInfo,
        ((m.writeThroughGetPtr pid fd g).1).Get pid fd = m.Get pid fd) := by
  exact ⟨rfl, fun _ => rfl⟩

/-! ## Type mapping tables (metagenerator.go, `goTypeConversions`,
`cTypeConversions`, `protoTypeConversions`) -/

/-- Go map indexing with the zero value on a missing key: looking up a key
that has no entry yields the empty string, exactly as `table[k]` does for a
Go `map[string]string`. -/
def lookupTable (t : List (String × String)) (k : String) : String :=
  match t.find? (fun p => p.1 == k) with
  | some p => p.2
  | none => ""

/-- `protoTypeConversions`: decoder (Go) type -> wire (protobuf) type. -/
def protoTypeConversions : List (String × String) := [
  ("BpfAttr", "todo"),
  ("CapUserData", "todo"),
  ("CapUserHeader", "todo"),
  ("FileHandle", "todo"),
  ("GetCPUCache", "todo"),
  ("IoCb", "todo"),
  ("IoEvent", "todo"),
  ("Itimerspec", "todo"),
  ("KexecSegment", "todo"),
  ("MqAttr", "todo"),
  ("Msgbuf", "todo"),
  ("Pollfd", "todo"),
  ("RobustListHead", "todo"),
  ("SigSet", "todo"),
  ("Sigaction", "todo"),
  ("Sigevent", "todo"),
  ("Stack", "todo"),
  ("SysctlArgs", "todo"),
  ("Timezone", "todo"),
  ("[256]byte", "bytes"),
  ("[]IoCb", "todo"),
  ("[]RobustListHead", "todo"),
  ("int16", "int32"),
  ("int32", "int32"),
  ("int64", "int64"),
  ("syscall.Dirent", "todo"),
  ("syscall.EpollEvent", "todo"),
  ("syscall.FdSet", "todo"),
  ("syscall.Iovec", "todo"),
  ("syscall.Msghdr", "todo"),
  ("syscall.Rlimit", "todo"),
  ("syscall.Rusage", "todo"),
  ("syscall.Sockaddr", "todo"),
  ("syscall.Stat_t", "todo"),
  ("syscall.Statfs_t", "todo"),
  ("syscall.Sysinfo_t", "todo"),
  ("syscall.Timespec", "todo"),
  ("syscall.Timeval", "todo"),
  ("syscall.Timex", "todo"),
  ("syscall.Tms", "todo"),
  ("syscall.Ustat_t", "todo"),
  ("syscall.Utimbuf", "todo"),
  ("syscall.Utsname", "todo"),
  ("uint16", "uint32"),
  ("uint32", "uint32"),
  ("uint64", "uint64"),
  ("unsafe.Pointer", "todo")]

/-- `goTypeConversions`: kernel type string -> decoder (Go) type.
`char *`-like types map to the fixed-size buffer `[256]byte`
(`maxBufferSize = 256`). -/
def goTypeConversions : List (String × String) := [
  ("aio_context_t *", "uint64"),
  ("aio_context_t", "uint64"),
  ("cap_user_data_t", "CapUserData"),
  ("cap_user_header_t", "CapUserHeader"),
  ("char *", "[256]byte"),
  ("const cap_user_data_t", "CapUserData"),
  ("const char *", "[256]byte"),
  ("const clockid_t", "uint32"),
  ("const int *", "int64"),
  ("const sigset_t *", "SigSet"),
  ("const stack_t *", "Stack"),
  ("const struct iovec *", "syscall.Iovec"),
  ("const struct itimerspec *", "Itimerspec"),
  ("const struct mq_attr *", "MqAttr"),
  ("const struct rlimit64 *", "syscall.Rlimit"),
  ("const struct sigaction *", "Sigaction"),
  ("const struct sigevent *", "Sigevent"),
  ("const struct timespec *", "syscall.Timespec"),
  ("const unsigned long *", "uint64"),
  ("const void * *", "unsafe.Pointer"),
  ("const void *", "unsafe.Pointer"),
  ("fd_set *", "syscall.FdSet"),
  ("gid_t *", "uint64"),
  ("gid_t", "uint32"),
  ("int *", "int64"),
  ("int", "int64"),
  ("key_serial_t", "int32"),
  ("key_t", "int64"),
  ("loff_t *", "int64"),
  ("loff_t", "int64"),
  ("long", "int64"),
  ("mqd_t", "int64"),
  ("off_t", "int64"),
  ("pid_t", "int64"),
  ("qid_t", "uint32"),
  ("__s32", "uint32"),
  ("siginfo_t *", "unsafe.Pointer"),
  ("sigset_t *", "SigSet"),
  ("size_t *", "int64"),
  ("size_t", "int64"),
  ("stack_t *", "Stack"),
  ("struct epoll_event *", "syscall.EpollEvent"),
  ("struct file_handle *", "FileHandle"),
  ("struct getcpu_cache *", "GetCPUCache"),
  ("struct iocb * *", "IoCb"),
  ("struct iocb *", "[]IoCb"),
  ("struct io_event *", "IoEvent"),
  ("struct itimerspec *", "Itimerspec"),
  ("struct itimerval *", "Itimerspec"),
  ("struct kexec_segment *", "KexecSegment"),
  ("struct linux_dirent64 *", "syscall.Dirent"),
  ("struct linux_dirent *", "syscall.Dirent"),
  ("struct mmsghdr *", "syscall.Msghdr"),
  ("struct mq_attr *", "MqAttr"),
  ("struct msgbuf *", "Msgbuf"),
  ("struct msqid_ds *", "unsafe.Pointer"),
  ("struct new_utsname *", "syscall.Utsname"),
  ("struct perf_event_attr *", "unsafe.Pointer"),
  ("struct pollfd *", "Pollfd"),
  ("struct rlimit64 *", "syscall.Rlimit"),
  ("struct rlimit *", "syscall.Rlimit"),
  ("struct robust_list_head * *", "[]RobustListHead"),
  ("struct robust_list_head *", "RobustListHead"),
  ("struct rusage *", "syscall.Rusage"),
  ("struct sched_attr *", "unsafe.Pointer"),
  ("struct sched_param *", "unsafe.Pointer"),
  ("struct sembuf *", "unsafe.Pointer"),
  ("struct shmid_ds *", "unsafe.Pointer"),
  ("struct sigaction *", "unsafe.Pointer"),
  ("struct sigevent *", "unsafe.Pointer"),
  ("struct siginfo *", "unsafe.Pointer"),
  ("struct sockaddr *", "syscall.Sockaddr"),
  ("struct stat *", "syscall.Stat_t"),
  ("struct statfs *", "syscall.Statfs_t"),
  ("struct __sysctl_args *", "SysctlArgs"),
  ("struct sysinfo *", "syscall.Sysinfo_t"),
  ("struct timespec *", "syscall.Timespec"),
  ("struct timeval *", "syscall.Timeval"),
  ("struct timex *", "syscall.Timex"),
  ("struct timezone *", "Timezone"),
  ("struct tms *", "syscall.Tms"),
  ("struct user_msghdr *", "unsafe.Pointer"),
  ("struct ustat *", "syscall.Ustat_t"),
  ("struct utimbuf *", "syscall.Utimbuf"),
  ("timer_t *", "int64"),
  ("timer_t", "int64"),
  ("time_t *", "int64"),
  ("u32 *", "uint32"),
  ("u32", "uint32"),
  ("u64", "uint64"),
  ("__u64", "uint64"),
  ("uid_t *", "uint64"),
  ("uid_t", "uint32"),
  ("umode_t", "uint64"),
  ("union bpf_attr *", "BpfAttr"),
  ("unsigned char *", "[256]byte"),
  ("unsigned *", "uint64"),
  ("unsigned", "uint64"),
  ("unsigned int *", "uint64"),
  ("unsigned int", "uint64"),
  ("unsigned long *", "uint64"),
  ("unsigned long", "uint64"),
  ("void *", "unsafe.Pointer")]

/-- `cTypeConversions`: kernel type string -> in-kernel record (C) type. -/
def cTypeConversions : List (String × String) := [
  ("aio_context_t *", "u64"),
  ("aio_context_t", "aio_context_t"),
  ("cap_user_data_t", "cap_user_data_t"),
  ("cap_user_header_t", "cap_user_header_t"),
  ("char *", "char"),
  ("const cap_user_data_t", "cap_user_data_t"),
  ("const char *", "char"),
  ("const clockid_t", "u32"),
  ("const int *", "s64"),
  ("const sigset_t *", "u64"),
  ("const stack_t *", "u64"),
  ("const struct iovec *", "u64"),
  ("const struct itimerspec *", "u64"),
  ("const struct mq_attr *", "u64"),
  ("const struct rlimit64 *", "u64"),
  ("const struct sigaction *", "u64"),
  ("const struct sigevent *", "u64"),
  ("const struct timespec *", "u64"),
  ("const unsigned long *", "u64"),
  ("const void * *", "u64"),
  ("const void *", "u64"),
  ("fd_set *", "u64"),
  ("gid_t *", "u64"),
  ("gid_t", "gid_t"),
  ("int *", "u64"),
  ("int", "s64"),
  ("key_serial_t", "key_serial_t"),
  ("key_t", "key_t"),
  ("loff_t *", "s64"),
  ("loff_t", "loff_t"),
  ("long", "s64"),
  ("mqd_t", "mdq_t"),
  ("off_t", "off_t"),
  ("pid_t", "pid_t"),
  ("qid_t", "qid_t"),
  ("__s32", "s32"),
  ("siginfo_t *", "u64"),
  ("sigset_t *", "u64"),
  ("size_t *", "u64"),
  ("size_t", "int64_t"),
  ("stack_t *", "u64"),
  ("struct epoll_event *", "u64"),
  ("struct file_handle *", "u64"),
  ("struct getcpu_cache *", "u64"),
  ("struct iocb * *", "u64"),
  ("struct iocb *", "u64"),
  ("struct io_event *", "u64"),
  ("struct itimerspec *", "u64"),
  ("struct itimerval *", "u64"),
  ("struct kexec_segment *", "u64"),
  ("struct linux_dirent64 *", "u64"),
  ("struct linux_dirent *", "u64"),
  ("struct mmsghdr *", "u64"),
  ("struct mq_attr *", "u64"),
  ("struct msgbuf *", "u64"),
  ("struct msqid_ds *", "u64"),
  ("struct new_utsname *", "u64"),
  ("struct perf_event_attr *", "u64"),
  ("struct pollfd *", "u64"),
  ("struct rlimit64 *", "u64"),
  ("struct rlimit *", "u64"),
  ("struct robust_list_head * *", "u64"),
  ("struct robust_list_head *", "u64"),
  ("struct rusage *", "u64"),
  ("struct sched_attr *", "u64"),
  ("struct sched_param *", "u64"),
  ("struct sembuf *", "u64"),
  ("struct shmid_ds *", "u64"),
  ("struct sigaction *", "u64"),
  ("struct sigevent *", "u64"),
  ("struct siginfo *", "u64"),
  ("struct sockaddr *", "u64"),
  ("struct stat *", "u64"),
  ("struct statfs *", "u64"),
  ("struct __sysctl_args *", "u64"),
  ("struct sysinfo *", "u64"),
  ("struct timespec *", "u64"),
  ("struct timeval *", "u64"),
  ("struct timex *", "u64"),
  ("struct timezone *", "u64"),
  ("struct tms *", "u64"),
  ("struct user_msghdr *", "u64"),
  ("struct ustat *", "u64"),
  ("struct utimbuf *", "u64"),
  ("timer_t *", "u64"),
  ("timer_t", "timer_t"),
  ("time_t *", "u64"),
  ("u32 *", "s64"),
  ("u32", "u32"),
  ("u64", "u64"),
  ("__u64", "u64"),
  ("uid_t *", "u64"),
  ("uid_t", "uid_t"),
  ("umode_t", "u64"),
  ("union bpf_attr *", "u64"),
  ("unsigned char *", "char"),
  ("unsigned *", "u64"),
  ("unsigned", "unsigned"),
  ("unsigned int *", "u64"),
  ("unsigned int", "u64"),
  ("unsigned long *", "u64"),
  ("unsigned long", "unsigned long"),
  ("void *", "u64")]

/-! ## `ToCamel` and the format-line regex (metagenerator.go, `ToCamel`,
`re`, `parseLine`) -/

/-- `strings.Trim(s, " ")`: strip leading and trailing spaces. -/
def trimSpacesList (s : List Char) : List Char :=
  ((s.dropWhile (· == ' ')).reverse.dropWhile (· == ' ')).reverse

/-- `strings.ToUpper` on a single ASCII lowercase letter. -/
def upChar (c : Char) : Char :=
  if 'a' ≤ c ∧ c ≤ 'z' then Char.ofNat (c.toNat - 32) else c

/-- The loop body of `ToCamel`: uppercase letters and digits pass through,
lowercase letters are capitalized exactly when `capNext` is set, `_` and
space are dropped and set `capNext`; every other rune is dropped and clears
`capNext`. -/
def toCamelAux : List Char → Bool → List Char
  | [], _ => []
  | v :: rest, capNext =>
    (if ('A' ≤ v ∧ v ≤ 'Z') ∨ ('0' ≤ v ∧ v ≤ '9') then [v] else []) ++
    (if 'a' ≤ v ∧ v ≤ 'z' then (if capNext then [upChar v] else [v]) else []) ++
    toCamelAux rest (v == '_' || v == ' ')

/-- `ToCamel`: converts a string to CamelCase. -/
def ToCamel (s : String) : String :=
  String.mk (toCamelAux (trimSpacesList s.toList) true)

/-- Go/RE2 `\s`: the whitespace class `[\t\n\f\r ]`. -/
def isGoSpace (c : Char) : Bool :=
  decide (c = ' ' ∨ c = '\t' ∨ c = '\n' ∨ c = Char.ofNat 12 ∨ c = Char.ofNat 13)

/-- The RE2 class `[a-z_0-9]` of the `name` capture group. -/
def isNameChar (c : Char) : Bool :=
  decide (('a' ≤ c ∧ c ≤ 'z') ∨ c = '_' ∨ ('0' ≤ c ∧ c ≤ '9'))

/-- Matching of `(?P<type>.*?) (?P<name>[a-z_0-9]+);.*` after the literal
`field:`, with RE2 leftmost-first semantics: the lazy `type` group commits to
the shortest prefix after which a space, a nonempty maximal `[a-z_0-9]+` run
and a `;` follow.  The name run must be maximal: `;` is not in the class, so
after any shorter (backtracked) greedy match the next character is still a
class character, never `;`.  `.` does not match a newline, so the lazy group
cannot extend across one.  `acc` holds the reversed characters committed to
the `type` group so far. -/
def matchTypeName : List Char → List Char → Option (String × String)
  | _, [] => none
  | acc, c :: rest =>
    if c = ' ' then
      let run := rest.takeWhile isNameChar
      let after := rest.drop run.length
      if run ≠ [] ∧ after.head? = some ';' then
        some (String.mk acc.reverse, String.mk run)
      else matchTypeName (c :: acc) rest
    else if c = '\n' then none
    else matchTypeName (c :: acc) rest

/-- First (leftmost) match of `\s+field:(?P<type>.*?) (?P<name>[a-z_0-9]+);.*`,
as `re.FindAllStringSubmatch(l, -1)` delivers it in `r[0]`: scan start
positions left to right; at a start the greedy `\s+` must consume exactly the
whitespace run (the following literal starts with the non-space `f`), then
`field:` and the type/name tail must match. -/
def reFindAux : List Char → Option (String × String)
  | [] => none
  | c :: rest =>
    let here : Option (String × String) :=
      if isGoSpace c then
        let after := (c :: rest).dropWhile isGoSpace
        if after.take 6 = "field:".toList then
          matchTypeName [] (after.drop 6)
        else none
      else none
    match here with
    | some r => some r
    | none => reFindAux rest

/-- The submatches `(type, name)` of the compiled pattern
`\s+field:(?P<type>.*?) (?P<name>[a-z_0-9]+);.*` on a line, or `none` when
the pattern does not match (`len(r) == 0`). -/
def reFind (l : String) : Option (String × String) := reFindAux l.toList

example : reFind "\tfield:const char * filename;\toffset:16;\tsize:8;\tsigned:0;"
    = some ("const char *", "filename") := by decide

example : reFind "\tfield:int flags;\toffset:24;\tsize:8;\tsigned:0;"
    = some ("int", "flags") := by decide

example : reFind "print fmt: \"filename: 0x%08lx\"" = none := by decide

example : ToCamel "mode" = "Mode" := by decide

example : ToCamel "old_name" = "OldName" := by decide

/-! ## `parseLine` (metagenerator.go) -/

/-- `Param`: one parameter of one schema variant.  `HashFunc` is never
assigned by the generator and stays at its zero value. -/
structure Param where
  Position  : Int
  Name      : String
  «Type»    : String
  Suffix    : String
  HashFunc  : String
  NeedsPath : Bool
deriving Repr, DecidableEq

/-- `parseLine(l, idx)`: parse one format line into the decoder, kernel-record
and wire parameter (in that order), plus the returned `error`.  When the
pattern does not match, or the field is the kernel-internal `__syscall_nr`,
all three are absent.  The `mp["type"]` / `mp["name"]` presence checks of the
source always succeed once the pattern matched (both groups exist in every
match), so they add no case here.  Note that every return path of the source
carries a nil error: the error component is always `none`, and a kernel type
missing from a conversion table silently yields the zero value `""` via
`lookupTable`. -/
def parseLine (l : String) (idx : Int) : Option (Param × Param × Param) × Option String :=
  match reFind l with
  | none => (none, none)
  | some (ty, nm) =>
    if nm = "__syscall_nr" then (none, none)
    else
      let goName := ToCamel nm
      let goType := lookupTable goTypeConversions ty
      let goParam : Param :=
        { Position := 0, Name := goName, «Type» := goType, Suffix := "", HashFunc := "",
          NeedsPath := goName == "Fd" || goName == "Dfd" }
      let cType := lookupTable cTypeConversions ty
      let cParam : Param :=
        { Position := idx - 8, Name := nm, «Type» := cType,
          Suffix := if cType = "char" then "[256]" else "", HashFunc := "",
          NeedsPath := false }
      let protoParam : Param :=
        { Position := 0, Name := nm, «Type» := lookupTable protoTypeConversions goType,
          Suffix := "", HashFunc := "", NeedsPath := false }
      (some (goParam, cParam, protoParam), none)

example :
    (parseLine "\tfield:const char * filename;\toffset:16;\tsize:8;\tsigned:0;" 9).1
      = some
        ({ Position := 0, Name := "Filename", «Type» := "[256]byte", Suffix := "",
           HashFunc := "", NeedsPath := false },
         { Position := 1, Name := "filename", «Type» := "char", Suffix := "[256]",
           HashFunc := "", NeedsPath := false },
         { Position := 0, Name := "filename", «Type» := "bytes", Suffix := "",
           HashFunc := "", NeedsPath := false }) := by decide

example : (parseLine "\tfield:int __syscall_nr;\toffset:8;\tsize:4;\tsigned:1;" 8).1
    = none := by decide

/-! ## `parseSyscall` (metagenerator.go) -/

/-- `strings.Split(s, "\n")` on character lists: split at every newline,
keeping empty pieces. -/
def splitNl : List Char → List (List Char)
  | [] => [[]]
  | c :: rest =>
    if c = '\n' then [] :: splitNl rest
    else
      match splitNl rest with
      | [] => [[c]]
      | p :: ps => (c :: p) :: ps

/-- `SyscallSchema` (`Syscall` in the source): one schema variant of one
traced syscall. -/
structure Syscall where
  Name    : String
  RawName : String
  Params  : List Param
deriving Repr, DecidableEq

/-- The line loop of `parseSyscall`: until the first empty line is seen
(`skipped` still false) non-empty lines are skipped; from the first empty
line on, every line goes through `parseLine`, whose error would be returned
at once and whose parameters are appended in line order to the three
parallel lists. -/
def parseSyscallAux : List String → Nat → Bool →
    Except String (List Param × List Param × List Param)
  | [], _, _ => .ok ([], [], [])
  | line :: rest, idx, skipped =>
    if skipped = false ∧ line.length ≠ 0 then
      parseSyscallAux rest (idx + 1) skipped
    else
      match (parseLine line (Int.ofNat idx)).2 with
      | some e => .error e
      | none =>
        match parseSyscallAux rest (idx + 1) true with
        | .error e => .error e
        | .ok (gs, cs, ps) =>
          match (parseLine line (Int.ofNat idx)).1 with
          | some (gp, cp, pp) => .ok (gp :: gs, cp :: cs, pp :: ps)
          | none => .ok (gs, cs, ps)

/-- `parseSyscall(name, format)`: the decoder, kernel-record and wire schema
variants (in that order) compiled from one format text. -/
def parseSyscall (name format : String) : Except String (Syscall × Syscall × Syscall) :=
  match parseSyscallAux ((splitNl format.toList).map String.mk) 0 false with
  | .error e => .error e
  | .ok (goParams, cParams, protoParams) =>
    .ok ({ Name := ToCamel name ++ "Event", RawName := name, Params := goParams },
         { Name := name, RawName := name, Params := cParams },
         { Name := "Protobuf" ++ ToCamel name ++ "Event", RawName := name,
           Params := protoParams })

/-- The tracepoint format text of `sys_enter_open` as the kernel exposes it:
a header section up to the first blank line, then the field lines
(`__syscall_nr`, then the three syscall arguments), then the print format. -/
def openFormatText : String :=
  "name: sys_enter_open\n" ++
  "ID: 603\n" ++
  "format:\n" ++
  "\tfield:unsigned short common_type;\toffset:0;\tsize:2;\tsigned:0;\n" ++
  "\tfield:unsigned char common_flags;\toffset:2;\tsize:1;\tsigned:0;\n" ++
  "\tfield:unsigned char common_preempt_count;\toffset:3;\tsize:1;\tsigned:0;\n" ++
  "\tfield:int common_pid;\toffset:4;\tsize:4;\tsigned:1;\n" ++
  "\n" ++
  "\tfield:int __syscall_nr;\toffset:8;\tsize:4;\tsigned:1;\n" ++
  "\tfield:const char * filename;\toffset:16;\tsize:8;\tsigned:0;\n" ++
  "\tfield:int flags;\toffset:24;\tsize:8;\tsigned:0;\n" ++
  "\tfield:umode_t mode;\toffset:32;\tsize:8;\tsigned:0;\n" ++
  "\n" ++
  "print fmt: \"filename: 0x%08lx, flags: 0x%08lx, mode: 0x%08lx\", ((unsigned long)(REC->filename)), ((unsigned long)(REC->flags)), ((unsigned long)(REC->mode))\n"

example :
    (parseSyscall "open" openFormatText).toOption.map
        (fun t => (t.1.Params.map Param.Name, t.2.1.Params.map Param.Name))
      = some (["Filename", "Flags", "Mode"], ["filename", "flags", "mode"]) := by decide

/-! ## Claims about the schema compiler -/

/-- Every return path of `parseLine` carries a nil error. -/
theorem parseLine_no_error (l : String) (idx : Int) : (parseLine l idx).2 = none := by
  unfold parseLine
  cases reFind l with
  | none => rfl
  | some tn =>
    obtain ⟨ty, nm⟩ := tn
    by_cases h : nm = "__syscall_nr" <;> simp [h]

/-- C1 counterexample: the kernel type `struct foo *` has no entry in the
decoder-type table, the kernel-record-type table, or (for the resulting
decoder type `""`) the wire-type table, yet `parseLine` on a format line
using it reports no error and derives the empty-string placeholder as all
three parameter types. -/
theorem unmapped_kernel_type_not_rejected :
    goTypeConversions.find? (fun p => p.1 == "struct foo *") = none
    ∧ cTypeConversions.find? (fun p => p.1 == "struct foo *") = none
    ∧ protoTypeConversions.find? (fun p => p.1 == "") = none
    ∧ (parseLine "\tfield:struct foo * bar;\toffset:16;\tsize:8;\tsigned:0;" 9).2 = none
    ∧ (parseLine "\tfield:struct foo * bar;\toffset:16;\tsize:8;\tsigned:0;" 9).1.map
        (fun t => (t.1.«Type», t.2.1.«Type», t.2.2.«Type»)) = some ("", "", "") := by
  decide

/-- C1 amended: an unmapped kernel type is not rejected at generation time:
whenever a format line matches the field pattern, names a field other than
`__syscall_nr`, and carries a kernel type with no decoder-type table entry,
`parseLine` returns a nil error together with a parameter triple whose
decoder-side type is the empty-string placeholder. -/
theorem unmapped_kernel_type_silent_placeholder (l : String) (idx : Int) (ty nm : String)
    (hm : reFind l = some (ty, nm)) (hnr : nm ≠ "__syscall_nr")
    (hmiss : goTypeConversions.find? (fun p => p.1 == ty) = none) :
    (parseLine l idx).2 = none
    ∧ ∃ gp cp pp, (parseLine l idx).1 = some (gp, cp, pp) ∧ gp.«Type» = "" := by
  refine ⟨parseLine_no_error l idx, ?_⟩
  unfold parseLine
  rw [hm]
  dsimp only
  rw [if_neg hnr]
  refine ⟨_, _, _, rfl, ?_⟩
  dsimp only
  unfold lookupTable
  rw [hmiss]

/-- Witness for the amended C1 at the concrete `struct foo *` line. -/
theorem unmapped_kernel_type_silent_placeholder_witness :
    (parseLine "\tfield:struct foo * bar;\toffset:16;\tsize:8;\tsigned:0;" 9).2 = none
    ∧ ∃ gp cp pp,
        (parseLine "\tfield:struct foo * bar;\toffset:16;\tsize:8;\tsigned:0;" 9).1
          = some (gp, cp, pp) ∧ gp.«Type» = "" :=
  unmapped_kernel_type_silent_placeholder
    "\tfield:struct foo * bar;\toffset:16;\tsize:8;\tsigned:0;" 9
    "struct foo *" "bar" (by decide) (by decide) (by decide)

/-- When `parseLine` yields a parameter triple, the decoder parameter's name
is the CamelCase normalization of the kernel-record parameter's name (both
come from the same matched `name` group). -/
theorem parseLine_go_name_camel (l : String) (idx : Int) (gp cp pp : Param)
    (h : (parseLine l idx).1 = some (gp, cp, pp)) : gp.Name = ToCamel cp.Name := by
  unfold parseLine at h
  cases hr : reFind l with
  | none => rw [hr] at h; exact absurd h (by simp)
  | some tn =>
    obtain ⟨ty, nm⟩ := tn
    rw [hr] at h
    dsimp only at h
    by_cases hnr : nm = "__syscall_nr"
    · rw [if_pos hnr] at h; exact absurd h (by simp)
    · rw [if_neg hnr] at h
      simp only [Option.some.injEq, Prod.mk.injEq] at h
      obtain ⟨hgp, hcp, _⟩ := h
      rw [← hgp, ← hcp]

/-- The decoder and kernel-record parameter lists built by the `parseSyscall`
loop have the same length and, index for index, names related by `ToCamel`. -/
theorem parseSyscallAux_aligned :
    ∀ (lines : List String) (idx : Nat) (skipped : Bool) gs cs ps,
      parseSyscallAux lines idx skipped = .ok (gs, cs, ps) →
      gs.length = cs.length
      ∧ ∀ i, (gs.get? i).map Param.Name = (cs.get? i).map (fun q => ToCamel q.Name)
  | [], _, _, gs, cs, _, h => by
    unfold parseSyscallAux at h
    simp only [Except.ok.injEq, Prod.mk.injEq] at h
    obtain ⟨h1, h2, _⟩ := h
    subst h1; subst h2
    exact ⟨rfl, fun _ => rfl⟩
  | line :: rest, idx, skipped, gs, cs, ps, h => by
    unfold parseSyscallAux at h
    by_cases hcond : skipped = false ∧ line.length ≠ 0
    · rw [if_pos hcond] at h
      exact parseSyscallAux_aligned rest (idx + 1) skipped gs cs ps h
    · rw [if_neg hcond, parseLine_no_error] at h
      cases hrec : parseSyscallAux rest (idx + 1) true with
      | error e => rw [hrec] at h; exact absurd h (by simp)
      | ok trip =>
        obtain ⟨gs', cs', ps'⟩ := trip
        rw [hrec] at h
        have IH := parseSyscallAux_aligned rest (idx + 1) true gs' cs' ps' hrec
        cases hpl : (parseLine line (Int.ofNat idx)).1 with
        | none =>
          rw [hpl] at h
          simp only [Except.ok.injEq, Prod.mk.injEq] at h
          obtain ⟨h1, h2, _⟩ := h; subst h1; subst h2
          exact IH
        | some t =>
          obtain ⟨gp, cp, pp⟩ := t
          rw [hpl] at h
          simp only [Except.ok.injEq, Prod.mk.injEq] at h
          obtain ⟨h1, h2, _⟩ := h; subst h1; subst h2
          have hname := parseLine_go_name_camel line (Int.ofNat idx) gp cp pp hpl
          refine ⟨by simp [IH.1], ?_⟩
          intro i
          cases i with
          | zero => simp [hname]
          | succ n => simpa using IH.2 n

/-- C3 counterexample: for the compiled syscall `open`, the first decoder
parameter is named `Filename` while the first kernel-record parameter is
named `filename`: the two variants do not carry equal names index for
index. -/
theorem schema_variants_name_mismatch :
    (parseSyscall "open" openFormatText).toOption.map
        (fun t => ((t.1.Params.map Param.Name).head?, (t.2.1.Params.map Param.Name).head?))
      = some (some "Filename", some "filename")
    ∧ ("Filename" : String) ≠ "filename" := by decide

/-- C3 amended: for every compiled syscall the kernel-record variant and the
decoder variant have the same number of parameters and, for every index, the
decoder parameter's name is the CamelCase normalization of the kernel-record
parameter's raw kernel name — both derive positionally from the same format
line, but their name strings differ by that normalization. -/
theorem schema_variants_positionally_aligned (name format : String) (g c p : Syscall)
    (h : parseSyscall name format = .ok (g, c, p)) :
    g.Params.length = c.Params.length
    ∧ ∀ i, (g.Params.get? i).map Param.Name
        = (c.Params.get? i).map (fun q => ToCamel q.Name) := by
  unfold parseSyscall at h
  cases haux : parseSyscallAux ((splitNl format.toList).map String.mk) 0 false with
  | error e => rw [haux] at h; exact absurd h (by simp)
  | ok trip =>
    obtain ⟨gs, cs, ps⟩ := trip
    rw [haux] at h
    simp only [Except.ok.injEq, Prod.mk.injEq] at h
    obtain ⟨hg, hc, _⟩ := h
    have halign := parseSyscallAux_aligned _ 0 false gs cs ps haux
    rw [← hg, ← hc]
    exact halign

/-- The decoder-variant parameters compiled from `openFormatText`. -/
def openGoParams : List Param := [
  { Position := 0, Name := "Filename", «Type» := "[256]byte", Suffix := "",
    HashFunc := "", NeedsPath := false },
  { Position := 0, Name := "Flags", «Type» := "int64", Suffix := "",
    HashFunc := "", NeedsPath := false },
  { Position := 0, Name := "Mode", «Type» := "uint64", Suffix := "",
    HashFunc := "", NeedsPath := false }]

/-- The kernel-record-variant parameters compiled from `openFormatText`. -/
def openCParams : List Param := [
  { Position := 1, Name := "filename", «Type» := "char", Suffix := "[256]",
    HashFunc := "", NeedsPath := false },
  { Position := 2, Name := "flags", «Type» := "s64", Suffix := "",
    HashFunc := "", NeedsPath := false },
  { Position := 3, Name := "mode", «Type» := "u64", Suffix := "",
    HashFunc := "", NeedsPath := false }]

/-- The wire-variant parameters compiled from `openFormatText`. -/
def openProtoParams : List Param := [
  { Position := 0, Name := "filename", «Type» := "bytes", Suffix := "",
    HashFunc := "", NeedsPath := false },
  { Position := 0, Name := "flags", «Type» := "int64", Suffix := "",
    HashFunc := "", NeedsPath := false },
  { Position := 0, Name := "mode", «Type» := "uint64", Suffix := "",
    HashFunc := "", NeedsPath := false }]

/-- Witness for the amended C3 at the compiled `open` schema. -/
theorem schema_variants_positionally_aligned_witness :
    openGoParams.length = openCParams.length
    ∧ ∀ i, (openGoParams.get? i).map Param.Name
        = (openCParams.get? i).map (fun q => ToCamel q.Name) :=
  schema_variants_positionally_aligned "open" openFormatText
    { Name := "OpenEvent", RawName := "open", Params := openGoParams }
    { Name := "open", RawName := "open", Params := openCParams }
    { Name := "ProtobufOpenEvent", RawName := "open", Params := openProtoParams }
    rfl

/-- C7: compiling the syscall `open` from format text declaring
`(const char * filename, int flags, umode_t mode)` yields the decoder schema
`OpenEvent` whose parameters, in order, are `Filename : [256]byte`,
`Flags : int64` and `Mode : uint64`, none marked as needing path
resolution. -/
theorem open_decoder_schema :
    (parseSyscall "open" openFormatText).toOption.map Prod.fst
      = some { Name := "OpenEvent", RawName := "open", Params := [
          { Position := 0, Name := "Filename", «Type» := "[256]byte", Suffix := "",
            HashFunc := "", NeedsPath := false },
          { Position := 0, Name := "Flags", «Type» := "int64", Suffix := "",
            HashFunc := "", NeedsPath := false },
          { Position := 0, Name := "Mode", «Type» := "uint64", Suffix := "",
            HashFunc := "", NeedsPath := false }] } := by
  decide

/-! ## Byte-buffer argument decoding (metagenerator.go, `helpers`,
`eventStringsTemplate`) -/

/-- `min(x, y int)` from the generated helpers. -/
def goMin (x y : Int) : Int := if x > y then y else x

/-- `bufLen(buf [256]byte)`: the index of the first zero byte, or the full
length when no zero occurs ("Assume buffer truncates at 0"). -/
def bufLen : List Nat → Nat
  | [] => 0
  | b :: rest => if b = 0 then 0 else bufLen rest + 1

/-- The byte count handed to `C.GoStringN` for a byte-buffer argument in the
generated `String`/`GetArgN` bodies: for `ReadEvent` and `WriteEvent` (the
size-bounded syscalls) the length starts at 0 and becomes
`min(int(ret), len(buf))` only when `ret > 0`; every other event uses
`bufLen(buf)`. -/
def goStringLen (evName : String) (ret : Int) (buf : List Nat) : Int :=
  if evName = "ReadEvent" ∨ evName = "WriteEvent" then
    if ret > 0 then goMin ret (Int.ofNat buf.length) else 0
  else Int.ofNat (bufLen buf)

/-- `C.GoStringN(buffer, length)`: the first `length` bytes of the buffer,
as the byte content of the decoded string. -/
def goStringN (buf : List Nat) (length : Int) : List Nat := buf.take length.toNat

/-- Decoding one byte-buffer argument of event `evName` under return value
`ret`, as both generated decode sites (`String` and `GetArgN`) do it. -/
def decodeBufArg (evName : String) (ret : Int) (buf : List Nat) : List Nat :=
  goStringN buf (goStringLen evName ret buf)

/-- Taking `bufLen` bytes is truncation at the first zero byte. -/
theorem take_bufLen_eq_takeWhile :
    ∀ buf : List Nat, buf.take (bufLen buf) = buf.takeWhile (fun b => b != 0)
  | [] => rfl
  | b :: rest => by
    by_cases hb : b = 0
    · subst hb; simp [bufLen]
    · simp [bufLen, hb, List.takeWhile_cons, take_bufLen_eq_takeWhile rest]

/-- C4: byte-buffer decoding truncates at the first zero byte (or the full
buffer when none occurs) for events that are not size-bounded; for the
size-bounded `ReadEvent`/`WriteEvent` it truncates at
`min(returnValue, bufferCapacity)` bytes when the return value is positive
and at length 0 otherwise; and decoding the same buffer twice yields the
same bytes. -/
theorem buffer_decode_truncation (evName : String) (ret : Int) (buf : List Nat) :
    (evName ≠ "ReadEvent" → evName ≠ "WriteEvent" →
       decodeBufArg evName ret buf = buf.takeWhile (fun b => b != 0))
    ∧ ((evName = "ReadEvent" ∨ evName = "WriteEvent") →
        (0 < ret → (decodeBufArg evName ret buf).length = min ret.toNat buf.length)
        ∧ (ret ≤ 0 → decodeBufArg evName ret buf = []))
    ∧ decodeBufArg evName ret buf = decodeBufArg evName ret buf := by
  refine ⟨?_, ?_, rfl⟩
  · intro h1 h2
    unfold decodeBufArg goStringLen goStringN
    rw [if_neg (by exact fun h => h.elim h1 h2)]
    simpa using take_bufLen_eq_takeWhile buf
  · intro hrw
    constructor
    · intro hpos
      unfold decodeBufArg goStringLen goStringN goMin
      rw [if_pos hrw, if_pos hpos]
      simp only [Int.ofNat_eq_natCast, List.length_take]
      split
      all_goals omega
    · intro hnonpos
      unfold decodeBufArg goStringLen goStringN
      rw [if_pos hrw, if_neg (by omega)]
      simp

/-- Witness for C4: a non-size-bounded decode stops at the first zero byte,
a `ReadEvent` decode with ret = 3 takes min(3, 4) bytes, and a `ReadEvent`
decode with negative ret is empty. -/
theorem buffer_decode_truncation_witness :
    decodeBufArg "OpenEvent" 5 [104, 105, 0, 106] = [104, 105]
    ∧ (decodeBufArg "ReadEvent" 3 [104, 105, 0, 106]).length = min 3 4
    ∧ decodeBufArg "ReadEvent" (-2) [104, 105, 0, 106] = [] := by
  refine ⟨?_, ?_, ?_⟩
  · rw [(buffer_decode_truncation "OpenEvent" 5 [104, 105, 0, 106]).1
      (by decide) (by decide)]
    decide
  · simpa using ((buffer_decode_truncation "ReadEvent" 3 [104, 105, 0, 106]).2.1
      (Or.inl rfl)).1 (by decide)
  · exact ((buffer_decode_truncation "ReadEvent" (-2) [104, 105, 0, 106]).2.1
      (Or.inl rfl)).2 (by decide)

/-! ## Descriptor-path resolution at decode time (metagenerator.go,
`getStructTemplate`) -/

/-- `syscall.Stat_t`, restricted to the fields the resolution logic reads
(`Ino` and `Dev`, both `uint64`, modelled as `Nat`). -/
structure StatT where
  Ino : Nat
  Dev : Nat
deriving Repr, DecidableEq

/-- The zero value left by `var stat syscall.Stat_t`. -/
def zeroStat : StatT := { Ino := 0, Dev := 0 }

/-- `syscall.ENOENT`, as an errno number. -/
def ENOENT : Nat := 2

/-- Go `uint32(x)` applied to an `int64`. -/
def u32OfInt (x : Int) : Nat := (x % 4294967296).toNat

/-- Go `%q` restricted to path strings free of escape-needing characters:
wrap in double quotes. -/
def goQuote (s : String) : String := "\"" ++ s ++ "\""

/-- `filepath.Join("/proc", strconv.FormatInt(pid, 10), "root", p)`, modulo
`Join`'s cleaning of duplicate separators; the stat oracle consumes the
string opaquely. -/
def procRootPath (pid : Int) (p : String) : String :=
  "/proc/" ++ toString pid ++ "/root/" ++ p

/-- The descriptor-path resolution block emitted by `getStructTemplate` for a
`NeedsPath` parameter: start from `"unknown"`; when the tracker holds the
descriptor, stat `/proc/<pid>/root/<recorded path>` (the oracle `statOf`
returns the errno, if any, and the stat result; on an error the
zero-initialized `syscall.Stat_t` is left untouched, which the model
enforces by substituting `zeroStat`), mark the name as deleted on `ENOENT`,
then overwrite with the recorded path exactly when the recorded inode,
device major (`Dev>>8`) and device minor (`Dev&0xff`) all match the stat
result. -/
def resolveFdPathName (fds : FdMap) (pid : Int) (fdArg : Nat)
    (statOf : String → Option Nat × StatT) : String :=
  let fileName := "unknown"
  match fds.Get (u32OfInt pid) fdArg with
  | (some info, true) =>
    let res := statOf (procRootPath pid info.Path)
    let stat : StatT :=
      match res.1 with
      | some _ => zeroStat
      | none => res.2
    let fileName :=
      match res.1 with
      | some e => if e = ENOENT then "[deleted] (" ++ goQuote info.Path ++ ")?" else fileName
      | none => fileName
    if info.Ino = stat.Ino ∧ info.Major = stat.Dev >>> 8 ∧ info.Minor = stat.Dev &&& 255
    then info.Path else fileName
  | _ => fileName

/-- C2: for a tracked descriptor whose recorded path stats successfully, the
recorded path is reported exactly when the recorded inode, device major and
device minor all match the stat result; on any mismatch resolution yields
the sentinel `"unknown"`, never the stale recorded path. -/
theorem stale_fd_resolves_unknown (fds : FdMap) (pid : Int) (fdArg : Nat)
    (statOf : String → Option Nat × StatT) (info : FdInfo) (st : StatT)
    (hget : fds.Get (u32OfInt pid) fdArg = (some info, true))
    (hstat : statOf (procRootPath pid info.Path) = (none, st)) :
    (¬(info.Ino = st.Ino ∧ info.Major = st.Dev >>> 8 ∧ info.Minor = st.Dev &&& 255) →
       resolveFdPathName fds pid fdArg statOf = "unknown")
    ∧ ((info.Ino = st.Ino ∧ info.Major = st.Dev >>> 8 ∧ info.Minor = st.Dev &&& 255) →
       resolveFdPathName fds pid fdArg statOf = info.Path) := by
  unfold resolveFdPathName
  rw [hget]
  dsimp only
  rw [hstat]
  dsimp only
  constructor
  · intro hne; rw [if_neg hne]
  · intro hyes; rw [if_pos hyes]

/-- Witness for C2: a tracked descriptor (pid 100, fd 5) whose recorded inode
10 no longer matches the live inode 11 resolves to "unknown". -/
theorem stale_fd_resolves_unknown_witness :
    resolveFdPathName
      (NewFdMap.Put 100 5 { Path := "/etc/passwd", Ino := 10, Major := 1, Minor := 2 })
      100 5 (fun _ => (none, { Ino := 11, Dev := 0 })) = "unknown" :=
  (stale_fd_resolves_unknown
    (NewFdMap.Put 100 5 { Path := "/etc/passwd", Ino := 10, Major := 1, Minor := 2 })
    100 5 (fun _ => (none, { Ino := 11, Dev := 0 }))
    { Path := "/etc/passwd", Ino := 10, Major := 1, Minor := 2 }
    { Ino := 11, Dev := 0 } (by decide) rfl).1 (by decide)

/-! ## `GatherSyscalls` (metagenerator.go) -/

/-- `strings.HasPrefix` on character lists. -/
def listHasPfx : List Char → List Char → Bool
  | [], _ => true
  | _ :: _, [] => false
  | p :: ps, c :: cs => p == c && listHasPfx ps cs

/-- `strings.HasPrefix(s, pre)`. -/
def strHasPfx (pre s : String) : Bool := listHasPfx pre.toList s.toList

/-- `strings.TrimPrefix(s, pre)`: drop `pre` when it heads `s`, else `s`. -/
def trimPfx (pre s : String) : String :=
  if strHasPfx pre s then String.mk (s.toList.drop pre.toList.length) else s

/-- `consideredSyscalls`: the allow-list of traced syscalls. -/
def consideredSyscalls : List String :=
  ["open", "close", "read", "write", "mkdir", "mkdirat", "chmod", "fchmod",
   "fchmodat", "chown", "fchown", "fchownat"]

/-- One directory entry delivered to the `filepath.Walk` callback, together
with the outcomes of the filesystem operations the callback would perform on
it: `openResult = none` models `os.Open` failing, `some (.error e)` models
`ioutil.ReadAll` failing after a successful open, and `some (.ok text)` is
the format text read successfully. -/
structure DirEnt where
  name : String
  isDir : Bool
  openResult : Option (Except String String)

/-- One step of the walk: either the walker reports an error for this path
(the callback's non-nil `err` argument, e.g. an unreadable directory) or it
delivers a directory entry. -/
inductive WalkItem where
  | err (e : String)
  | entry (path : String) (f : DirEnt)

/-- The body of the `filepath.Walk` callback in `GatherSyscalls`: a walk
error is returned as-is; the literal path `"syscalls"`, non-directories,
`sys_exit_*` tracepoints, syscalls outside the allow-list and entries whose
format file cannot be opened are skipped (`return nil`); a failure while
reading an opened format file, or a `parseSyscall` error, is returned and
aborts the walk.  A successful parse appends the three schema variants. -/
def walkStep (acc : List Syscall × List Syscall × List Syscall) :
    WalkItem → Except String (List Syscall × List Syscall × List Syscall)
  | .err e => .error e
  | .entry path f =>
    if path = "syscalls" then .ok acc
    else if f.isDir = false then .ok acc
    else if strHasPfx "sys_exit" f.name then .ok acc
    else if ¬ (trimPfx "sys_enter_" f.name ∈ consideredSyscalls) then .ok acc
    else
      match f.openResult with
      | none => .ok acc
      | some (.error e) => .error e
      | some (.ok text) =>
        match parseSyscall (trimPfx "sys_enter_" f.name) text with
        | .error e => .error e
        | .ok (g, c, p) => .ok (acc.1 ++ [g], acc.2.1 ++ [c], acc.2.2 ++ [p])

/-- The walk over all items in order, stopping at the first error. -/
def gatherLoop : List WalkItem → (List Syscall × List Syscall × List Syscall) →
    Except String (List Syscall × List Syscall × List Syscall)
  | [], acc => .ok acc
  | item :: rest, acc =>
    match walkStep acc item with
    | .error e => .error e
    | .ok acc' => gatherLoop rest acc'

/-- The error wrapper `fmt.Errorf("error walking %q: %v", err)` applied by
`GatherSyscalls` to a failed walk. -/
inductive GatherError where
  | walkError (e : String)
deriving Repr, DecidableEq

/-- `GatherSyscalls`: walk the tracepoint directory (modelled as the ordered
list of items `filepath.Walk` would deliver) and return the decoder,
kernel-record and wire schema lists. -/
def GatherSyscalls (items : List WalkItem) :
    Except GatherError (List Syscall × List Syscall × List Syscall) :=
  match gatherLoop items ([], [], []) with
  | .error e => .error (.walkError e)
  | .ok r => .ok r

/-- An entry whose format file cannot be opened is skipped: every path of the
callback that reaches `os.Open` returns nil on an open failure, and the ones
that do not reach it return nil as well. -/
theorem walkStep_open_failure_skipped (acc : List Syscall × List Syscall × List Syscall)
    (path : String) (f : DirEnt) (h : f.openResult = none) :
    walkStep acc (.entry path f) = .ok acc := by
  unfold walkStep
  dsimp only
  split_ifs <;> simp [h]

/-- Unfolding one step of the walk when the step succeeds. -/
theorem gatherLoop_cons_ok (item : WalkItem) (items : List WalkItem)
    (acc acc' : List Syscall × List Syscall × List Syscall)
    (h : walkStep acc item = .ok acc') :
    gatherLoop (item :: items) acc = gatherLoop items acc' := by
  show (match walkStep acc item with
        | .error e => .error e
        | .ok a => gatherLoop items a) = gatherLoop items acc'
  rw [h]

/-- C6 counterexample: a tracepoint directory entry for `sys_enter_open`
whose format file opens but cannot be read makes `GatherSyscalls` fail with
an error instead of being skipped. -/
theorem unreadable_format_fails_gather :
    GatherSyscalls [.entry "/sys/kernel/debug/tracing/events/syscalls/sys_enter_open"
        { name := "sys_enter_open", isDir := true, openResult := some (.error "read failure") }]
      = .error (.walkError "read failure") := rfl

/-- C6 amended: entries whose format file cannot be OPENED are skipped and
never fail compilation, but a walk error aborts the gather, and so does a
failure while READING an opened format file of a considered traced
syscall. -/
theorem gather_error_policy (acc : List Syscall × List Syscall × List Syscall)
    (path : String) (f : DirEnt) (e : String) (items : List WalkItem) :
    (f.openResult = none →
       walkStep acc (.entry path f) = .ok acc
       ∧ GatherSyscalls (WalkItem.entry path f :: items) = GatherSyscalls items)
    ∧ walkStep acc (.err e) = .error e
    ∧ (f.isDir = true → path ≠ "syscalls" →
       strHasPfx "sys_exit" f.name = false →
       trimPfx "sys_enter_" f.name ∈ consideredSyscalls →
       f.openResult = some (.error e) →
       walkStep acc (.entry path f) = .error e) := by
  refine ⟨?_, rfl, ?_⟩
  · intro h
    refine ⟨walkStep_open_failure_skipped acc path f h, ?_⟩
    unfold GatherSyscalls
    rw [gatherLoop_cons_ok _ items _ _ (walkStep_open_failure_skipped ([], [], []) path f h)]
  · intro hdir hpath hexit hconsidered hread
    unfold walkStep
    dsimp only
    rw [if_neg hpath, if_neg (by simp [hdir]), if_neg (by simp [hexit]),
        if_neg (by simp [hconsidered]), hread]

/-- Witness for the amended C6: an unopenable `sys_enter_close` entry is
skipped by the gather, a walk error aborts the step, and a read failure on a
readable `sys_enter_close` entry aborts the step. -/
theorem gather_error_policy_witness :
    (GatherSyscalls [.entry "/sys/x/sys_enter_close"
         { name := "sys_enter_close", isDir := true, openResult := none }]
       = GatherSyscalls [])
    ∧ walkStep ([], [], []) (.err "walk oops") = .error "walk oops"
    ∧ walkStep ([], [], []) (.entry "/sys/x/sys_enter_close"
         { name := "sys_enter_close", isDir := true, openResult := some (.error "bad read") })
       = .error "bad read" := by
  refine ⟨?_, ?_, ?_⟩
  · exact ((gather_error_policy ([], [], []) "/sys/x/sys_enter_close"
      { name := "sys_enter_close", isDir := true, openResult := none } "" []).1 rfl).2
  · exact (gather_error_policy ([], [], []) "/sys/x/sys_enter_close"
      { name := "sys_enter_close", isDir := true, openResult := none } "walk oops" []).2.1
  · exact (gather_error_policy ([], [], []) "/sys/x/sys_enter_close"
      { name := "sys_enter_close", isDir := true, openResult := some (.error "bad read") }
      "bad read" []).2.2 rfl (by decide) (by decide) (by decide) rfl

/-! ## The generated decode entry point (metagenerator.go,
`getStructPreamble`, `getStructTemplate`, `getStructEpilogue`) -/

/-- The common event header as `GetStruct` consumes it; decoding uses
`ce.Name` (the event name) and `ce.Pid`.  Modelled from the generated
code's uses together with the header layout of the proto definitions. -/
structure CommonEvent where
  Timestamp : Nat
  Pid : Int
  Ret : Int
  Name : String

/-- A decoded field value of a generated per-syscall event record.
`zeroed` stands for a field of a type for which `getStructTemplate` emits no
decode statement, leaving the record field at its zero value. -/
inductive FieldVal where
  | bytes (bs : List Nat)
  | u32 (v : Nat)
  | i32 (v : Int)
  | u64 (v : Nat)
  | i64 (v : Int)
  | zeroed
deriving Repr, DecidableEq

/-- One decoded record field: its name, value, and — for a `NeedsPath`
parameter — the resolved descriptor path written into the shadow
`<Name>Path` field. -/
structure DecodedField where
  name : String
  val : FieldVal
  fdPath : Option String
deriving Repr, DecidableEq

/-- The decoded `Event` values `GetStruct` can return. -/
inductive Event where
  | syscallEv (scName : String) (fields : List DecodedField)
  | fileEv (fd ino major minor : Nat)
  | connectV4 (saddr daddr sport dport netns : Nat)
  | connectV6 (saddr daddr : List Nat) (sport dport netns : Nat)
  | defaultEv
deriving Repr, DecidableEq

/-- Decode failures: `panicShort` models the run-time panic of
`binary.LittleEndian.UintN` on a short slice from `buf.Next(n)`;
`binReadShort` the error `binary.Read` returns on a short buffer. -/
inductive DecodeErr where
  | panicShort
  | binReadShort
deriving Repr, DecidableEq

/-- Little-endian value of a byte list (first byte least significant). -/
def leVal : List Nat → Nat
  | [] => 0
  | b :: rest => b + 256 * leVal rest

/-- Go `int64` reading of a 64-bit little-endian value (two's complement). -/
def toInt64 (v : Nat) : Int :=
  if v < 2 ^ 63 then (v : Int) else (v : Int) - 2 ^ 64

/-- Go `int32` reading of a 32-bit little-endian value (two's complement). -/
def toInt32 (v : Nat) : Int :=
  if v < 2 ^ 31 then (v : Int) else (v : Int) - 2 ^ 32

/-- `binary.LittleEndian.Uint32(buf.Next(4))`: panics when fewer than 4
bytes remain. -/
def readU32 (buf : List Nat) : Except DecodeErr (Nat × List Nat) :=
  if buf.length < 4 then .error .panicShort
  else .ok (leVal (buf.take 4), buf.drop 4)

/-- `binary.LittleEndian.Uint16(buf.Next(2))`: panics when fewer than 2
bytes remain. -/
def readU16 (buf : List Nat) : Except DecodeErr (Nat × List Nat) :=
  if buf.length < 2 then .error .panicShort
  else .ok (leVal (buf.take 2), buf.drop 2)

/-- `binary.LittleEndian.Uint64(buf.Next(8))`: panics when fewer than 8
bytes remain. -/
def readU64 (buf : List Nat) : Except DecodeErr (Nat × List Nat) :=
  if buf.length < 8 then .error .panicShort
  else .ok (leVal (buf.take 8), buf.drop 8)

/-- Go `uint32(ev.X)` on a decoded field value (descriptor parameters carry
integral decoder types; the remaining cases would not compile in Go and are
mapped to 0). -/
def u32OfFieldVal : FieldVal → Nat
  | .u32 v => v % 4294967296
  | .i32 v => u32OfInt v
  | .u64 v => v % 4294967296
  | .i64 v => u32OfInt v
  | _ => 0

/-- The per-parameter decode statements emitted by `getStructTemplate`:
`[256]byte` fields copy `buf.Next(256)` into a zeroed 256-byte array,
`uint32`/`int32` fields read 4 little-endian bytes, `uint64`/`int64` fields
read 8, and parameters of any other type get no decode statement and keep
their zero value; a `NeedsPath` parameter is then annotated with the
resolved descriptor path via the tracker and the stat oracle. -/
def decodeGoParams (fds : FdMap) (pid : Int) (statOf : String → Option Nat × StatT) :
    List Param → List Nat → Except DecodeErr (List DecodedField × List Nat)
  | [], buf => .ok ([], buf)
  | param :: rest, buf =>
    let step : Except DecodeErr (FieldVal × List Nat) :=
      if param.«Type» = "[256]byte" then
        let bs := buf.take 256
        .ok (.bytes (bs ++ List.replicate (256 - bs.length) 0), buf.drop 256)
      else if param.«Type» = "uint32" then
        match readU32 buf with
        | .error e => .error e
        | .ok (v, b) => .ok (.u32 v, b)
      else if param.«Type» = "int32" then
        match readU32 buf with
        | .error e => .error e
        | .ok (v, b) => .ok (.i32 (toInt32 v), b)
      else if param.«Type» = "uint64" then
        match readU64 buf with
        | .error e => .error e
        | .ok (v, b) => .ok (.u64 v, b)
      else if param.«Type» = "int64" then
        match readU64 buf with
        | .error e => .error e
        | .ok (v, b) => .ok (.i64 (toInt64 v), b)
      else .ok (.zeroed, buf)
    match step with
    | .error e => .error e
    | .ok (v, buf') =>
      let fdPath : Option String :=
        if param.NeedsPath then
          some (resolveFdPathName fds pid (u32OfFieldVal v) statOf)
        else none
      match decodeGoParams fds pid statOf rest buf' with
      | .error e => .error e
      | .ok (flds, bufRest) =>
        .ok ({ name := param.Name, val := v, fdPath := fdPath } :: flds, bufRest)

/-- `uint32(ev.Fd)`: the value of the decoded field named `Fd` (0 when
absent, which cannot happen for a generated `CloseEvent` record). -/
def fdFieldValue (flds : List DecodedField) : Nat :=
  match flds.find? (fun f => f.name == "Fd") with
  | some f => u32OfFieldVal f.val
  | none => 0

/-- One generated per-syscall case of `GetStruct`: decode the fields in
declared order; for `CloseEvent` additionally delete the descriptor from
the tracker. -/
def decodeSyscallBranch (sc : Syscall) (ce : CommonEvent) (fds : FdMap)
    (buf : List Nat) (statOf : String → Option Nat × StatT) :
    Except DecodeErr (Event × FdMap) :=
  match decodeGoParams fds ce.Pid statOf sc.Params buf with
  | .error e => .error e
  | .ok (flds, _) =>
    let fds' :=
      if sc.Name = "CloseEvent" then fds.Delete (u32OfInt ce.Pid) (fdFieldValue flds)
      else fds
    .ok (.syscallEv sc.Name flds, fds')

/-- The descriptor path recorded by the `fd_install` handler:
`procLookupPath`'s readlink result, or `"unknown"` when the lookup failed. -/
def resolvedLinkName (readlink : Except String String) : String :=
  match readlink with
  | .ok s => s
  | .error _ => "unknown"

/-- The `FdInfo` the `fd_install` handler builds: the resolved path together
with the inode and device numbers decoded from the `FileEvent` record. -/
def installedInfo (buf : List Nat) (readlink : Except String String) : FdInfo :=
  { Path := resolvedLinkName readlink,
    Ino := leVal ((buf.drop 8).take 8),
    Major := leVal ((buf.drop 16).take 8),
    Minor := leVal ((buf.drop 24).take 8) }

/-- The `fd_install` case of the generated `GetStruct`: `binary.Read`
decodes the 32-byte `FileEvent` (four little-endian `uint64`s) and returns
an error on a short buffer; the descriptor's path is resolved via
`procLookupPath` with `"unknown"` on failure; the entry is recorded in the
tracker only when the resolved path begins with `/` ("ignore entries not
backed by files, like sockets or anonymous inodes"). -/
def handleFdInstall (ce : CommonEvent) (fds : FdMap) (buf : List Nat)
    (readlink : Except String String) : Except DecodeErr (Event × FdMap) :=
  if buf.length < 32 then .error .binReadShort
  else
    let fdInfo := installedInfo buf readlink
    let fds' :=
      if strHasPfx "/" fdInfo.Path then
        fds.Put (u32OfInt ce.Pid) (leVal (buf.take 8) % 4294967296) fdInfo
      else fds
    .ok (.fileEv (leVal (buf.take 8)) fdInfo.Ino fdInfo.Major fdInfo.Minor, fds')

/-- The `connect_v4`/`accept_v4`/`close_v4` case: four reads off the
buffer in order (Saddr, Daddr, Sport, Dport, Netns). -/
def handleConnectV4 (buf : List Nat) : Except DecodeErr Event := do
  let (saddr, b1) ← readU32 buf
  let (daddr, b2) ← readU32 b1
  let (sport, b3) ← readU16 b2
  let (dport, b4) ← readU16 b3
  let (netns, _) ← readU32 b4
  return .connectV4 saddr daddr sport dport netns

/-- The `connect_v6`/`accept_v6`/`close_v6` case: two 16-byte address
copies (zero-padded like the target arrays), then the ports and netns. -/
def handleConnectV6 (buf : List Nat) : Except DecodeErr Event := do
  let s := buf.take 16
  let b1 := buf.drop 16
  let d := b1.take 16
  let b2 := b1.drop 16
  let (sport, b3) ← readU16 b2
  let (dport, b4) ← readU16 b3
  let (netns, _) ← readU32 b4
  return .connectV6 (s ++ List.replicate (16 - s.length) 0)
    (d ++ List.replicate (16 - d.length) 0) sport dport netns

/-- The generated `GetStruct(ce, ctx, buf)`: dispatch on the header's event
name over the compiled syscall cases (in compiled order), then the fixed
`fd_install` and connection cases, and the no-op `DefaultEvent` for every
other name.  The result carries the tracker as it stands after the call. -/
def GetStruct (syscalls : List Syscall) (ce : CommonEvent) (fds : FdMap)
    (buf : List Nat) (statOf : String → Option Nat × StatT)
    (readlink : Except String String) : Except DecodeErr (Event × FdMap) :=
  match syscalls.find? (fun sc => sc.RawName == ce.Name) with
  | some sc => decodeSyscallBranch sc ce fds buf statOf
  | none =>
    if ce.Name = "fd_install" then handleFdInstall ce fds buf readlink
    else if ce.Name = "close_v4" ∨ ce.Name = "accept_v4" ∨ ce.Name = "connect_v4" then
      match handleConnectV4 buf with
      | .error e => .error e
      | .ok ev => .ok (ev, fds)
    else if ce.Name = "close_v6" ∨ ce.Name = "accept_v6" ∨ ce.Name = "connect_v6" then
      match handleConnectV6 buf with
      | .error e => .error e
      | .ok ev => .ok (ev, fds)
    else .ok (.defaultEv, fds)

/-- C8: when the header's event name is neither a compiled syscall's raw
name nor one of the fixed descriptor-install/connection event names,
`GetStruct` returns the no-op default event together with a nil error and
an unchanged tracker. -/
theorem unknown_event_name_defaults (syscalls : List Syscall) (ce : CommonEvent)
    (fds : FdMap) (buf : List Nat) (statOf : String → Option Nat × StatT)
    (readlink : Except String String)
    (hsc : ∀ sc ∈ syscalls, sc.RawName ≠ ce.Name)
    (hfixed : ce.Name ∉ ["fd_install", "close_v4", "accept_v4", "connect_v4",
                         "close_v6", "accept_v6", "connect_v6"]) :
    GetStruct syscalls ce fds buf statOf readlink = .ok (.defaultEv, fds) := by
  unfold GetStruct
  have hfind : syscalls.find? (fun sc => sc.RawName == ce.Name) = none := by
    apply List.find?_eq_none.mpr
    intro sc hmem
    simpa using hsc sc hmem
  rw [hfind]
  simp only [List.mem_cons, List.not_mem_nil, or_false, not_or] at hfixed
  obtain ⟨h1, h2, h3, h4, h5, h6, h7⟩ := hfixed
  rw [if_neg h1, if_neg (by tauto), if_neg (by tauto)]

/-- Witness for C8: an unrecognized event name decodes to the default no-op
event with no error. -/
theorem unknown_event_name_defaults_witness :
    GetStruct [] { Timestamp := 0, Pid := 1, Ret := 0, Name := "frobnicate" }
        NewFdMap [] (fun _ => (none, zeroStat)) (.error "no link")
      = .ok (.defaultEv, NewFdMap) :=
  unknown_event_name_defaults [] _ NewFdMap [] _ _
    (fun sc h => absurd h (List.not_mem_nil sc)) (by decide)

/-- The invariant of C9: every path stored in the tracker is absolute. -/
def allAbsolute (m : FdMap) : Prop :=
  ∀ p inner, m p = some inner → ∀ fd i, inner fd = some i → strHasPfx "/" i.Path = true

/-- `Put` of an absolute-path info preserves the invariant. -/
theorem allAbsolute_put (m : FdMap) (pid fd : Nat) (i : FdInfo)
    (hm : allAbsolute m) (hi : strHasPfx "/" i.Path = true) :
    allAbsolute (m.Put pid fd i) := by
  intro p inner hp f j hj
  unfold FdMap.Put at hp
  by_cases hpp : p = pid
  · rw [if_pos hpp] at hp
    injection hp with hp
    rw [← hp] at hj
    dsimp only at hj
    by_cases hff : f = fd
    · rw [if_pos hff] at hj
      injection hj with hj
      rw [← hj]
      exact hi
    · rw [if_neg hff] at hj
      cases hmp : m pid with
      | none => rw [hmp] at hj; cases hj
      | some m' =>
        rw [hmp] at hj
        exact hm pid m' hmp f j hj
  · rw [if_neg hpp] at hp
    exact hm p inner hp f j hj

/-- `Delete` preserves the invariant. -/
theorem allAbsolute_delete (m : FdMap) (pid fd : Nat) (hm : allAbsolute m) :
    allAbsolute (m.Delete pid fd) := by
  intro p inner hp f j hj
  unfold FdMap.Delete at hp
  cases hmp : m pid with
  | none => rw [hmp] at hp; exact hm p inner hp f j hj
  | some m' =>
    rw [hmp] at hp
    dsimp only at hp
    by_cases hpp : p = pid
    · rw [if_pos hpp] at hp
      injection hp with hp
      rw [← hp] at hj
      dsimp only at hj
      by_cases hff : f = fd
      · rw [if_pos hff] at hj; cases hj
      · rw [if_neg hff] at hj
        exact hm pid m' hmp f j hj
    · rw [if_neg hpp] at hp
      exact hm p inner hp f j hj

/-- C9: the `fd_install` handler inserts a tracker entry exactly when the
resolved path is absolute — on a successful decode the resulting tracker is
`Put` of the resolved info when its path begins with `/`, and the unchanged
input tracker otherwise (in particular whenever the path lookup failed and
the name is the non-absolute `"unknown"`); consequently `GetStruct`
preserves the invariant that every entry ever stored in the tracker has an
absolute path. -/
theorem fd_install_absolute_only :
    (∀ (ce : CommonEvent) (fds : FdMap) (buf : List Nat)
       (readlink : Except String String) (ev : Event) (fds' : FdMap),
       handleFdInstall ce fds buf readlink = .ok (ev, fds') →
       (strHasPfx "/" (resolvedLinkName readlink) = true →
          fds' = fds.Put (u32OfInt ce.Pid) (leVal (buf.take 8) % 4294967296)
                   (installedInfo buf readlink))
       ∧ (strHasPfx "/" (resolvedLinkName readlink) = false → fds' = fds))
    ∧ (∀ (syscalls : List Syscall) (ce : CommonEvent) (fds : FdMap)
       (buf : List Nat) (statOf : String → Option Nat × StatT)
       (readlink : Except String String) (ev : Event) (fds' : FdMap),
       allAbsolute fds →
       GetStruct syscalls ce fds buf statOf readlink = .ok (ev, fds') →
       allAbsolute fds') := by
  constructor
  · intro ce fds buf readlink ev fds' h
    unfold handleFdInstall at h
    by_cases hlen : buf.length < 32
    · rw [if_pos hlen] at h; cases h
    · rw [if_neg hlen] at h
      dsimp only at h
      injection h with h
      injection h with _ h
      constructor
      · intro habs
        rw [← h]
        rw [if_pos (show strHasPfx "/" (installedInfo buf readlink).Path = true from habs)]
      · intro hnabs
        rw [← h]
        rw [if_neg (show ¬ strHasPfx "/" (installedInfo buf readlink).Path = true from by
          rw [show (installedInfo buf readlink).Path = resolvedLinkName readlink from rfl,
            hnabs]; simp)]
  · intro syscalls ce fds buf statOf readlink ev fds' hm h
    unfold GetStruct at h
    cases hfind : syscalls.find? (fun sc => sc.RawName == ce.Name) with
    | some sc =>
      rw [hfind] at h
      dsimp only at h
      unfold decodeSyscallBranch at h
      cases hdec : decodeGoParams fds ce.Pid statOf sc.Params buf with
      | error e => rw [hdec] at h; cases h
      | ok pr =>
        obtain ⟨flds, rest⟩ := pr
        rw [hdec] at h
        dsimp only at h
        injection h with h
        injection h with _ h
        rw [← h]
        by_cases hclose : sc.Name = "CloseEvent"
        · rw [if_pos hclose]
          exact allAbsolute_delete fds _ _ hm
        · rw [if_neg hclose]
          exact hm
    | none =>
      rw [hfind] at h
      dsimp only at h
      by_cases hfi : ce.Name = "fd_install"
      · rw [if_pos hfi] at h
        unfold handleFdInstall at h
        by_cases hlen : buf.length < 32
        · rw [if_pos hlen] at h; cases h
        · rw [if_neg hlen] at h
          dsimp only at h
          injection h with h
          injection h with _ h
          rw [← h]
          by_cases habs : strHasPfx "/" (installedInfo buf readlink).Path = true
          · rw [if_pos habs]
            exact allAbsolute_put fds _ _ _ hm habs
          · rw [if_neg habs]
            exact hm
      · rw [if_neg hfi] at h
        by_cases hv4 : ce.Name = "close_v4" ∨ ce.Name = "accept_v4" ∨ ce.Name = "connect_v4"
        · rw [if_pos hv4] at h
          cases hc4 : handleConnectV4 buf with
          | error e => rw [hc4] at h; cases h
          | ok ev4 =>
            rw [hc4] at h
            injection h with h
            injection h with _ h
            rw [← h]; exact hm
        · rw [if_neg hv4] at h
          by_cases hv6 : ce.Name = "close_v6" ∨ ce.Name = "accept_v6" ∨ ce.Name = "connect_v6"
          · rw [if_pos hv6] at h
            cases hc6 : handleConnectV6 buf with
            | error e => rw [hc6] at h; cases h
            | ok ev6 =>
              rw [hc6] at h
              injection h with h
              injection h with _ h
              rw [← h]; exact hm
          · rw [if_neg hv6] at h
            injection h with h
            injection h with _ h
            rw [← h]; exact hm

/-- Witness for C9: decoding a concrete `fd_install` event for pid 100,
fd 5 with resolved absolute path `/tmp/f` yields the tracker with exactly
that entry inserted. -/
theorem fd_install_absolute_only_witness :
    NewFdMap.Put 100 5 { Path := "/tmp/f", Ino := 0, Major := 0, Minor := 0 }
      = NewFdMap.Put (u32OfInt 100)
          (leVal ((5 :: List.replicate 31 0).take 8) % 4294967296)
          (installedInfo (5 :: List.replicate 31 0) (.ok "/tmp/f")) :=
  (fd_install_absolute_only.1
    { Timestamp := 0, Pid := 100, Ret := 0, Name := "fd_install" }
    NewFdMap (5 :: List.replicate 31 0) (.ok "/tmp/f")
    (.fileEv 5 0 0 0)
    (NewFdMap.Put 100 5 { Path := "/tmp/f", Ino := 0, Major := 0, Minor := 0 })
    rfl).1 rfl
